import Mathlib

/-!
# Verification of the TNL/GPHL lab-alert ETL

Shallow embedding of `src/etl_tnl_alert.py`.  The script is one
straight-line pipeline: fetch an object from a raw bucket (lines 71-88),
run the spreadsheet-shaped parse (lines 100-156), run the document-table
parse (lines 168-202), serialize the final interim frame to CSV and put it
into the clean bucket (lines 205-230).

Python-level exceptions (AttributeError, ValueError, KeyError, IndexError,
date parser errors) are modelled with `Except PyError`.  The date parsers
provided by the external pandas/dateutil libraries are modelled by
executable Lean functions (`parseDateL`, `fuzzyParseDateL`) whose
error-handling contracts match the libraries' documented behaviour:
`pandas.to_datetime` with `errors="coerce"` yields NaT (here `none`)
instead of raising, while `dateutil.parser.parse` raises a ParserError
when no date can be extracted from the text.
-/

/-- Python exception classes the script can raise. -/
inductive PyError where
  | attributeError
  | valueError
  | parserError
  | keyError
  | indexError
  deriving DecidableEq

/-- A calendar date, the payload of a parsed timestamp. -/
structure Date where
  year : Nat
  month : Nat
  day : Nat
  deriving DecidableEq

/-- Sequential composition in the error model: an uncaught Python exception
propagates past the rest of the statement. -/
def bindE {ε α β : Type} (x : Except ε α) (f : α → Except ε β) : Except ε β :=
  match x with
  | .error e => .error e
  | .ok a => f a

/-- Elementwise fallible map: a Python list comprehension whose body may
raise. -/
def mapExcept {α β : Type} (f : α → Except PyError β) : List α → Except PyError (List β)
  | [] => .ok []
  | a :: l => bindE (f a) (fun b => bindE (mapExcept f l) (fun bs => .ok (b :: bs)))

/-- The ASCII characters Python's `str.strip()` removes. -/
def isPySpace (c : Char) : Bool :=
  c = ' ' || c = '\t' || c = '\n' || c = '\r' || c = Char.ofNat 11 || c = Char.ofNat 12

/-- Python `str.strip()`: drop whitespace from both ends. -/
def pyStrip (s : String) : String :=
  String.mk (((s.data.dropWhile isPySpace).reverse.dropWhile isPySpace).reverse)

/-- Worker for `pyTitle`: tracks whether the previous character was a
letter, so the first letter of each word is uppercased and subsequent
letters are lowercased, like Python's `str.title()`. -/
def pyTitleGo : Bool → List Char → List Char
  | _, [] => []
  | prevAlpha, c :: rest =>
    (if c.isAlpha then (if prevAlpha then c.toLower else c.toUpper) else c) ::
      pyTitleGo c.isAlpha rest

/-- Python `str.title()` (pandas `Series.str.title`, line 151). -/
def pyTitle (s : String) : String := String.mk (pyTitleGo false s.data)

/-- Python `str.capitalize()` (pandas `Series.str.capitalize`, lines 154
and 197): first character uppercased, the rest lowercased. -/
def pyCapitalize (s : String) : String :=
  match s.data with
  | [] => ""
  | c :: rest => String.mk (c.toUpper :: rest.map Char.toLower)

/-- Python `str.split(sep)` for a single-character separator: split on
every occurrence, keeping empty pieces (so `"".split(sep) == [""]`). -/
def splitChar (sep : Char) : List Char → List (List Char)
  | [] => [[]]
  | c :: rest =>
    if c = sep then [] :: splitChar sep rest
    else
      match splitChar sep rest with
      | [] => [[c]]
      | g :: gs => (c :: g) :: gs

/-- Numeric value of a digit string. -/
def natOfDigits (l : List Char) : Nat :=
  l.foldl (fun acc c => acc * 10 + (c.toNat - 48)) 0

def isLeapYear (y : Nat) : Bool := (y % 4 == 0 && y % 100 != 0) || y % 400 == 0

def daysInMonth (y m : Nat) : Nat :=
  if m = 2 then (if isLeapYear y then 29 else 28)
  else if m = 4 ∨ m = 6 ∨ m = 9 ∨ m = 11 then 30
  else 31

/-- Model of the strict date parser shared by the external pandas/dateutil
libraries: an ISO `YYYY-MM-DD` string with a valid month and day parses to
a date, anything else is a parse failure.  The claims under verification
concern only the error-propagation contract (coerce versus raise), not the
library's full input grammar, so one concrete calendar grammar stands in
for it. -/
def parseDateL (l : List Char) : Option Date :=
  match splitChar '-' l with
  | [ys, ms, ds] =>
    if ys.length = 4 ∧ ys.all Char.isDigit ∧
        ms ≠ [] ∧ ms.length ≤ 2 ∧ ms.all Char.isDigit ∧
        ds ≠ [] ∧ ds.length ≤ 2 ∧ ds.all Char.isDigit then
      if 1 ≤ natOfDigits ms ∧ natOfDigits ms ≤ 12 ∧ 1 ≤ natOfDigits ds ∧
          natOfDigits ds ≤ daysInMonth (natOfDigits ys) (natOfDigits ms) then
        some ⟨natOfDigits ys, natOfDigits ms, natOfDigits ds⟩
      else none
    else none
  | _ => none

/-- First hit of a partial function over a list. -/
def firstSome {α β : Type} (f : α → Option β) : List α → Option β
  | [] => none
  | a :: l =>
    match f a with
    | some b => some b
    | none => firstSome f l

/-- Model of `dateutil.parser.parse(text, fuzzy=True)`'s scan: the first
whitespace-separated token of the text that is a date yields that date;
a text with no date-shaped token fails. -/
def fuzzyParseDateL (l : List Char) : Option Date :=
  firstSome parseDateL (splitChar ' ' l)

/-- Line 175: `dparser.parse(data.iloc[0, 0], fuzzy=True)`.  dateutil
raises a ParserError when no date can be extracted; there is no coercion
argument on this call, so the failure propagates.  (The surrounding
`pd.to_datetime(...)` applied to an already-parsed datetime always
succeeds and is the identity here.) -/
def dparserParseFuzzy (s : String) : Except PyError Date :=
  match fuzzyParseDateL s.data with
  | some d => .ok d
  | none => .error .parserError

/-- The `errors=` keyword of `pandas.to_datetime`. -/
inductive DatetimeErrors where
  | raiseErr
  | coerce
  deriving DecidableEq

/-- `pandas.to_datetime(value, errors=...)` applied to one value: with
`errors="coerce"` an unparseable value becomes NaT (`none`) and the call
never raises; with the default `errors="raise"` it raises. -/
def pd_to_datetime (errors : DatetimeErrors) (s : String) : Except PyError (Option Date) :=
  match parseDateL s.data with
  | some d => .ok (some d)
  | none =>
    match errors with
    | .coerce => .ok none
    | .raiseErr => .error .parserError

/-! ## Object-key derivation (line 64) -/

/-- Python `"alert.xlsx".replace(".xlsx", ".csv")` specialised to the
literal pattern of line 64: scan left to right, replacing every
non-overlapping occurrence of `".xlsx"` by `".csv"` and copying every
other character. -/
def replaceXlsx : List Char → List Char
  | c1 :: c2 :: c3 :: c4 :: c5 :: rest =>
    if c1 = '.' ∧ c2 = 'x' ∧ c3 = 'l' ∧ c4 = 's' ∧ c5 = 'x' then
      '.' :: 'c' :: 's' :: 'v' :: replaceXlsx rest
    else c1 :: replaceXlsx (c2 :: c3 :: c4 :: c5 :: rest)
  | l => l

/-- Whether `pat` occurs as a contiguous substring. -/
def occursIn (pat : List Char) : List Char → Bool
  | [] => pat.isEmpty
  | c :: rest => pat.isPrefixOf (c :: rest) || occursIn pat rest

/-- Line 64: `clean_obj_key = alert_obj_key.replace(".xlsx", ".csv")`. -/
def cleanObjKey (alert_obj_key : String) : String :=
  String.mk (replaceXlsx alert_obj_key.data)

/-! ## Spreadsheet parse (lines 100-156) -/

/-- Line 30: the fixed canonical header list assigned to the spreadsheet
frame at line 105. -/
def OUT_COL_NAMES : List String :=
  ["Empty", "Testing-Results", "State", "Date_Received", "Date_Reported",
   "Last_Name", "First_Name", "DOB", "State_Lab_ID", "Specimen",
   "Date_Collection", "Submitting_Facility", "Sample_Collection_Facility",
   "Known_Positive", "Colonization_Detected"]

/-- Line 121: `data.find("Candida auris")`.  `data` is a pandas DataFrame;
a DataFrame resolves an unknown attribute as a column lookup and raises
AttributeError when no column of that name exists.  `find` is not a
DataFrame method and not among the column names assigned at line 105, so
this expression raises AttributeError on every input.  (The `.ok` arm is
the would-be column lookup; it is unreachable because `"find"` is not in
`OUT_COL_NAMES`.) -/
def dataFindCandidaAuris : Except PyError Bool :=
  match OUT_COL_NAMES.findIdx? (fun n => n == "find") with
  | some _ => .ok true
  | none => .error .attributeError

/-- Lines 124-127 applied to one cell: `x.split("-")` followed by tuple
unpacking `for m, o in ...`, which raises ValueError unless the split
yields exactly two pieces; the two pieces are stripped. -/
def hyphenCell (s : String) : Except PyError (String × String) :=
  match (splitChar '-' s.data).map String.mk with
  | [m, o] => .ok (pyStrip m, pyStrip o)
  | _ => .error .valueError

/-- The lazy part of the regex `([A-Z]\..*?)(?=,)` (line 136): consume
characters up to but excluding the next comma; `.` does not match a
newline, and reaching the end of the string without a comma fails.
Returns the consumed prefix and the remainder starting at the comma. -/
def lazySplitComma : List Char → Option (List Char × List Char)
  | [] => none
  | c :: rest =>
    if c = ',' then some ([], c :: rest)
    else if c = '\n' then none
    else (lazySplitComma rest).map (fun p => (c :: p.1, p.2))

/-- Attempt of the regex `([A-Z]\..*?)(?=,)` at the head of the list:
an ASCII capital letter, a literal dot, then lazily anything up to a
following comma.  Returns the matched text and the rest of the input. -/
def orgMatchHere : List Char → Option (List Char × List Char)
  | a :: '.' :: rest =>
    if 'A' ≤ a ∧ a ≤ 'Z' then
      (lazySplitComma rest).map (fun p => (a :: '.' :: p.1, p.2))
    else none
  | _ => none

/-- `re.search` of the pattern: the leftmost position with a match wins. -/
def orgSearch : List Char → Option (List Char)
  | [] => none
  | c :: rest =>
    match orgMatchHere (c :: rest) with
    | some p => some p.1
    | none => orgSearch rest

/-- `re.sub` of the pattern with the empty replacement, fuelled by the
input length (every step consumes at least one character, so the fuel
never runs out when initialised with the length). -/
def orgSubFuel : Nat → List Char → List Char
  | 0, l => l
  | _ + 1, [] => []
  | fuel + 1, c :: rest =>
    match orgMatchHere (c :: rest) with
    | some p => orgSubFuel fuel p.2
    | none => c :: orgSubFuel fuel rest

def orgSub (l : List Char) : List Char := orgSubFuel l.length l

/-- Lines 139-145 applied to one cell: the mechanism is
`re.sub(org_pattern, lambda x: "", s)` and the organism is
`comp_pattern.search(s).group(0) or "UNKNOWN"`.  When the search finds no
match it returns None, and `.group(0)` on None raises AttributeError; the
`or "UNKNOWN"` fallback only fires on a falsy (empty) match, which the
pattern cannot produce. -/
def prefixCell (s : String) : Except PyError (String × String) :=
  match orgSearch s.data with
  | none => .error .attributeError
  | some m =>
    .ok (String.mk (orgSub s.data), if m.isEmpty then "UNKNOWN" else String.mk m)

/-- The named columns of the spreadsheet frame after line 105 (first
decorative row dropped, canonical names assigned positionally). -/
structure SSTable where
  testingResults : List String
  dateReceived : List String
  dateReported : List String
  lastName : List String
  firstName : List String
  dob : List String
  specimen : List String
  dateCollection : List String

/-- Lines 121-147: pick the splitting convention from
`data.find("Candida auris")` and apply it to every `Testing-Results`
cell. -/
def ssSplitPairs (testingResults : List String) : Except PyError (List (String × String)) :=
  bindE dataFindCandidaAuris (fun b =>
    if b then mapExcept hyphenCell testingResults
    else mapExcept prefixCell testingResults)

/-- The spreadsheet interim frame (lines 108-156), column-wise like the
pandas original; `testing_lab` is the scalar broadcast `"TNL"` of
line 156. -/
structure SSInterim where
  mechanism : List String
  organism : List String
  date_received : List (Option Date)
  date_reported : List (Option Date)
  patient_name : List String
  dob : List (Option Date)
  source : List String
  date_of_collection : List (Option Date)
  testing_lab : String

/-- Lines 108-156: build the spreadsheet interim frame. -/
def ssSection (t : SSTable) : Except PyError SSInterim :=
  bindE (ssSplitPairs t.testingResults) (fun pairs =>
  bindE (mapExcept (pd_to_datetime .coerce) t.dateReceived) (fun dr =>
  bindE (mapExcept (pd_to_datetime .coerce) t.dateReported) (fun drep =>
  bindE (mapExcept (pd_to_datetime .coerce) t.dob) (fun dobs =>
  bindE (mapExcept (pd_to_datetime .coerce) t.dateCollection) (fun dcolls =>
  .ok { mechanism := pairs.map Prod.fst
        organism := pairs.map Prod.snd
        date_received := dr
        date_reported := drep
        patient_name := List.zipWith (fun ln fn => pyTitle ln ++ ", " ++ pyTitle fn)
          t.lastName t.firstName
        dob := dobs
        source := t.specimen.map pyCapitalize
        date_of_collection := dcolls
        testing_lab := "TNL" })))))

/-- The column labels of the spreadsheet interim frame in assignment order
(lines 129, 148-156). -/
def ssInterimColumns : List String :=
  ["Mechanism (*Submitters Report)", "Organism", "Date Received", "Date Reported",
   "Patient Name", "DOB", "Source", "Date of Collection", "Testing Lab"]

/-! ## Document-table parse (lines 168-202) -/

/-- One canonical output record of the document-table parse. -/
structure DocRecord where
  mechanism : String
  organism : String
  date_received : Date
  date_reported : Date
  patient_name : String
  dob : Option Date
  source : String
  date_of_collection : Option Date
  testing_lab : String
  facility_of_origin : String
  deriving DecidableEq

/-- Cell access in a data row; python-docx tables are rectangular grids,
so the index is always in range for well-formed input. -/
def cellAt (row : List String) (i : Nat) : String := row.getD i ""

/-- pandas column lookup by label: position of the named column in the
header row, KeyError when absent. -/
def colIdxE (header : List String) (name : String) : Except PyError Nat :=
  match header.findIdx? (fun h => h == name) with
  | some i => .ok i
  | none => .error .keyError

/-- Lines 191-202 applied to one data row: build one canonical record.
`DOB` and `Date of Collection` go through `pd.to_datetime(...,
errors="coerce")`; both date fields of the batch are the header date;
`Source` is capitalised; `Testing Lab` is the scalar `"GPHL"`. -/
def docRowRecord (hdrDate : Date) (iMech iOrg iName iDob iSrc iColl iFrom : Nat)
    (row : List String) : Except PyError DocRecord :=
  bindE (pd_to_datetime .coerce (cellAt row iDob)) (fun dobVal =>
  bindE (pd_to_datetime .coerce (cellAt row iColl)) (fun dcollVal =>
  .ok { mechanism := cellAt row iMech
        organism := cellAt row iOrg
        date_received := hdrDate
        date_reported := hdrDate
        patient_name := cellAt row iName
        dob := dobVal
        source := pyCapitalize (cellAt row iSrc)
        date_of_collection := dcollVal
        testing_lab := "GPHL"
        facility_of_origin := cellAt row iFrom }))

/-- Lines 168-202: the document-table parse.  Row 0's first cell is
fuzzily parsed as the batch date (raising on failure), row 1 becomes the
header, the remaining rows become records via the named columns. -/
def docTableParse (rows : List (List String)) : Except PyError (List DocRecord) :=
  match rows with
  | [] => .error .indexError
  | row0 :: restRows =>
    match row0.head? with
    | none => .error .indexError
    | some firstCell =>
      match fuzzyParseDateL firstCell.data with
      | none => .error .parserError
      | some hdrDate =>
        match restRows with
        | [] => .error .keyError
        | header :: dataRows =>
          bindE (colIdxE header "Anti-Microbial Resistance RT-PCR") (fun iMech =>
          bindE (colIdxE header "Organism ID") (fun iOrg =>
          bindE (colIdxE header "Patient Name") (fun iName =>
          bindE (colIdxE header "DOB") (fun iDob =>
          bindE (colIdxE header "Source") (fun iSrc =>
          bindE (colIdxE header "Date of Collection") (fun iColl =>
          bindE (colIdxE header "Received from") (fun iFrom =>
          mapExcept (docRowRecord hdrDate iMech iOrg iName iDob iSrc iColl iFrom)
            dataRows)))))))

/-- The column labels of the document-table interim frame in assignment
order (lines 191-202): the spreadsheet columns plus the trailing
`Facility of Origin`. -/
def docInterimColumns : List String :=
  ["Mechanism (*Submitters Report)", "Organism", "Date Received", "Date Reported",
   "Patient Name", "DOB", "Source", "Date of Collection", "Testing Lab",
   "Facility of Origin"]

/-! ## Serialization and the run (lines 205-230) -/

def showDate (d : Date) : String :=
  toString d.year ++ "-" ++ toString d.month ++ "-" ++ toString d.day

/-- pandas renders NaT as the empty field in `to_csv`. -/
def showOptDate : Option Date → String
  | some d => showDate d
  | none => ""

/-- One serialized data row of the interim frame, in column order. -/
def docRecordRow (r : DocRecord) : List String :=
  [r.mechanism, r.organism, showDate r.date_received, showDate r.date_reported,
   r.patient_name, showOptDate r.dob, r.source, showOptDate r.date_of_collection,
   r.testing_lab, r.facility_of_origin]

/-- `interim.to_csv(csv_buff, index=False)` (line 206) as a row table: a
header row holding the column labels followed by one row per record, and
no index column.  (Quoting of embedded separators is not modelled; the
claims concern the row and column structure.) -/
def toCsvRows (recs : List DocRecord) : List (List String) :=
  docInterimColumns :: recs.map docRecordRow

def toCsv (recs : List DocRecord) : String :=
  String.intercalate "\n" ((toCsvRows recs).map (String.intercalate ","))

/-- Lines 190-206: `interim = pd.DataFrame()` throws away the spreadsheet
interim frame, the document-table records are assigned, and only they are
serialized.  The first argument is the discarded spreadsheet frame flowing
in from line 156. -/
def serializePhase (_ssInterim : SSInterim) (docRecs : List DocRecord) : String :=
  toCsv docRecs

/-- Everything a run consumes: the acquisition status (line 73), the
spreadsheet view and the document-table view of the fetched body, and the
publication status (line 212). -/
structure RunInput where
  getStatus : Nat
  ssTable : SSTable
  docRows : List (List String)
  putStatus : Nat

inductive RunError where
  | acquisitionFailure
  | pyError (e : PyError)
  | publicationFailure
  deriving DecidableEq

/-- Lines 208-225: `put_object` followed by the status check.  A
non-success status raises after the store refused the write, so no clean
object is produced (`none`); on success the serialized payload is stored. -/
def writePhase (putStatus : Nat) (csv : String) : Except RunError Unit × Option String :=
  if putStatus = 200 then (.ok (), some csv) else (.error .publicationFailure, none)

/-- The whole script, line order preserved: acquisition status check
(lines 73-86), spreadsheet parse (lines 100-156), document-table parse
(lines 168-202) whose records overwrite the spreadsheet interim (line
190), serialization and publication (lines 205-230).  The second
component is the clean object stored, if any. -/
def runEtl (inp : RunInput) : Except RunError String × Option String :=
  if inp.getStatus = 200 then
    match ssSection inp.ssTable with
    | .error e => (.error (.pyError e), none)
    | .ok ssInterim =>
      match docTableParse inp.docRows with
      | .error e => (.error (.pyError e), none)
      | .ok recs =>
        match writePhase inp.putStatus (serializePhase ssInterim recs) with
        | (.ok _, stored) => (.ok (serializePhase ssInterim recs), stored)
        | (.error e, stored) => (.error e, stored)
  else (.error .acquisitionFailure, none)

/-! ## Concrete sample inputs used by witnesses and counterexamples -/

def sampleDocRows : List (List String) :=
  [["Alert report generated 2024-03-15 for review", "", "", "", "", "", ""],
   ["Anti-Microbial Resistance RT-PCR", "Organism ID", "Patient Name", "DOB",
    "Source", "Date of Collection", "Received from"],
   ["KPC", "K. pneumoniae", "Doe, John", "1980-01-02", "urine culture",
    "2024-03-10", "General Hospital"]]

def sampleDocRec : DocRecord :=
  { mechanism := "KPC"
    organism := "K. pneumoniae"
    date_received := ⟨2024, 3, 15⟩
    date_reported := ⟨2024, 3, 15⟩
    patient_name := "Doe, John"
    dob := some ⟨1980, 1, 2⟩
    source := "Urine culture"
    date_of_collection := some ⟨2024, 3, 10⟩
    testing_lab := "GPHL"
    facility_of_origin := "General Hospital" }

/-- A document table whose free-text header row holds no parseable date. -/
def c4BadDocRows : List (List String) :=
  [["received by lab, undated", "", "", "", "", "", ""],
   ["Anti-Microbial Resistance RT-PCR", "Organism ID", "Patient Name", "DOB",
    "Source", "Date of Collection", "Received from"],
   ["KPC", "C. auris", "Roe, Jan", "1975-05-06", "blood", "2024-02-01", "Clinic"]]

def sampleSSTable : SSTable := ⟨[], [], [], [], [], [], [], []⟩

def sampleRunInput : RunInput := ⟨503, sampleSSTable, sampleDocRows, 200⟩

/-! ## Helper lemmas -/

theorem bindE_ok {ε α β : Type} {x : Except ε α} {f : α → Except ε β} {b : β}
    (h : bindE x f = .ok b) : ∃ a, x = .ok a ∧ f a = .ok b := by
  cases x with
  | error e => simp [bindE] at h
  | ok a => exact ⟨a, rfl, h⟩

theorem mapExcept_ok_mem {α β : Type} (f : α → Except PyError β) :
    ∀ (l : List α) (res : List β), mapExcept f l = .ok res →
      ∀ b ∈ res, ∃ a, a ∈ l ∧ f a = .ok b := by
  intro l
  induction l with
  | nil =>
    intro res h b hb
    simp only [mapExcept] at h
    injection h with h
    subst h
    simp at hb
  | cons a l ih =>
    intro res h b hb
    simp only [mapExcept] at h
    obtain ⟨b0, hfa, h⟩ := bindE_ok h
    obtain ⟨bs, hml, h⟩ := bindE_ok h
    injection h with h
    subst h
    rcases List.mem_cons.mp hb with rfl | hb
    · exact ⟨a, List.mem_cons_self a l, hfa⟩
    · obtain ⟨a', ha', hfa'⟩ := ih bs hml b hb
      exact ⟨a', List.mem_cons_of_mem a ha', hfa'⟩

theorem docTableParse_ok_spec (rows : List (List String)) (recs : List DocRecord)
    (h : docTableParse rows = .ok recs) :
    ∃ d, dparserParseFuzzy ((rows.headD []).headD "") = .ok d ∧
      ∀ r ∈ recs, r.date_received = d ∧ r.date_reported = d ∧ r.testing_lab = "GPHL" := by
  cases rows with
  | nil => simp [docTableParse] at h
  | cons row0 restRows =>
    cases hc : row0.head? with
    | none => simp [docTableParse, hc] at h
    | some firstCell =>
      cases hf : fuzzyParseDateL firstCell.data with
      | none => simp [docTableParse, hc, hf] at h
      | some d =>
        cases restRows with
        | nil => simp [docTableParse, hc, hf] at h
        | cons header dataRows =>
          simp only [docTableParse, hc, hf] at h
          obtain ⟨i1, h1, h⟩ := bindE_ok h
          obtain ⟨i2, h2, h⟩ := bindE_ok h
          obtain ⟨i3, h3, h⟩ := bindE_ok h
          obtain ⟨i4, h4, h⟩ := bindE_ok h
          obtain ⟨i5, h5, h⟩ := bindE_ok h
          obtain ⟨i6, h6, h⟩ := bindE_ok h
          obtain ⟨i7, h7, h⟩ := bindE_ok h
          refine ⟨d, ?_, ?_⟩
          · cases row0 with
            | nil => simp at hc
            | cons x xs =>
              injection hc with hc
              subst hc
              simp only [List.headD_cons]
              simp [dparserParseFuzzy, hf]
          · intro r hr
            obtain ⟨row, _, hrr⟩ := mapExcept_ok_mem _ dataRows recs h r hr
            unfold docRowRecord at hrr
            obtain ⟨dobV, _, hrr⟩ := bindE_ok hrr
            obtain ⟨dcollV, _, hrr⟩ := bindE_ok hrr
            injection hrr with hrr
            subst hrr
            exact ⟨rfl, rfl, rfl⟩

theorem replaceXlsx_cons (c1 c2 c3 c4 c5 : Char) (rest : List Char) :
    replaceXlsx (c1 :: c2 :: c3 :: c4 :: c5 :: rest) =
      if c1 = '.' ∧ c2 = 'x' ∧ c3 = 'l' ∧ c4 = 's' ∧ c5 = 'x' then
        '.' :: 'c' :: 's' :: 'v' :: replaceXlsx rest
      else c1 :: replaceXlsx (c2 :: c3 :: c4 :: c5 :: rest) := rfl

theorem replaceXlsx_append_xlsx :
    ∀ p : List Char, occursIn ['.', 'x', 'l', 's', 'x'] p = false →
      replaceXlsx (p ++ ['.', 'x', 'l', 's', 'x']) = p ++ ['.', 'c', 's', 'v'] := by
  intro p
  induction p with
  | nil => intro _; rfl
  | cons c p' ih =>
    intro h
    simp only [occursIn, Bool.or_eq_false_iff] at h
    obtain ⟨h1, h2⟩ := h
    rcases p' with _ | ⟨a, _ | ⟨b, _ | ⟨d, _ | ⟨e, p''⟩⟩⟩⟩
    · simp only [List.cons_append, List.nil_append]
      rw [replaceXlsx_cons, if_neg (fun hc0 => absurd hc0.2.1 (by decide))]
      rfl
    · simp only [List.cons_append, List.nil_append] at ih ⊢
      rw [replaceXlsx_cons, if_neg (fun hc0 => absurd hc0.2.2.1 (by decide))]
      rw [ih h2]
    · simp only [List.cons_append, List.nil_append] at ih ⊢
      rw [replaceXlsx_cons, if_neg (fun hc0 => absurd hc0.2.2.2.1 (by decide))]
      rw [ih h2]
    · simp only [List.cons_append, List.nil_append] at ih ⊢
      rw [replaceXlsx_cons, if_neg (fun hc0 => absurd hc0.2.2.2.2 (by decide))]
      rw [ih h2]
    · simp only [List.cons_append, List.nil_append] at ih ⊢
      rw [replaceXlsx_cons]
      by_cases hcond : c = '.' ∧ a = 'x' ∧ b = 'l' ∧ d = 's' ∧ e = 'x'
      · exfalso
        obtain ⟨rfl, rfl, rfl, rfl, rfl⟩ := hcond
        have htrue : List.isPrefixOf ['.', 'x', 'l', 's', 'x']
            ('.' :: 'x' :: 'l' :: 's' :: 'x' :: p'') = true := by
          simp [List.isPrefixOf]
        rw [htrue] at h1
        exact Bool.noConfusion h1
      · rw [if_neg hcond]
        rw [ih h2]

/-- C1: the record set serialized and written to the clean bucket is the
one produced by the document-table parser: line 190 overwrites the
spreadsheet interim with a fresh frame before serialization, so the
serialized output is independent of the spreadsheet interim, every record
of a successful document-table parse carries Testing Lab "GPHL" (never the
spreadsheet label "TNL"), and the output header always contains the
Facility of Origin column. -/
theorem c1_written_records_doc_table_only :
    (∀ ss ss' : SSInterim, ∀ recs : List DocRecord,
        serializePhase ss recs = serializePhase ss' recs) ∧
    (∀ rows recs, docTableParse rows = .ok recs →
        ∀ r ∈ recs, r.testing_lab = "GPHL" ∧ r.testing_lab ≠ "TNL") ∧
    "Facility of Origin" ∈ docInterimColumns := by
  refine ⟨fun _ _ _ => rfl, ?_, by decide⟩
  intro rows recs h r hr
  obtain ⟨d, _, hall⟩ := docTableParse_ok_spec rows recs h
  have hg := (hall r hr).2.2
  exact ⟨hg, by rw [hg]; decide⟩

theorem c1_written_records_doc_table_only_witness :
    sampleDocRec.testing_lab = "GPHL" :=
  (c1_written_records_doc_table_only.2.1 sampleDocRows [sampleDocRec] rfl sampleDocRec
    (by simp)).1

/-- C2 (code bug): line 121 evaluates `data.find("Candida auris")` on a
pandas DataFrame; `find` is neither a DataFrame method nor an assigned
column name, so the attribute lookup raises AttributeError on every input
and no splitting strategy is ever selected — the substring test the claim
(and the code's own comment) describes never happens. -/
theorem c2_branch_selector_raises :
    dataFindCandidaAuris = .error .attributeError ∧
    (∀ testingResults : List String,
        ssSplitPairs testingResults = .error .attributeError) ∧
    (∀ t : SSTable, ssSection t = .error .attributeError) :=
  ⟨rfl, fun _ => rfl, fun _ => rfl⟩

/-- C3 (code bug): under the organism-prefix convention a matching cell
yields the matched organism and the cell with the pattern removed, but a
cell with no match raises AttributeError (the search returns None and
`.group(0)` is invoked on None) instead of producing the intended
"UNKNOWN": that fallback is unreachable. -/
theorem c3_prefix_convention_eval :
    prefixCell "some prefix text S. aureus, more text" =
        .ok ("some prefix text , more text", "S. aureus") ∧
      prefixCell "carbapenemase detected" = .error .attributeError :=
  ⟨rfl, rfl⟩

/-- C4 counterexample: the document-table free-text header date does not
become an absent value on parse failure — `dparser.parse` (line 175)
raises, so the whole document-table parse errors on a document whose
header cell holds no date, refuting the claim for that date field. -/
theorem c4_header_date_raises :
    docTableParse c4BadDocRows = .error .parserError ∧
      ∀ recs, docTableParse c4BadDocRows ≠ .ok recs :=
  ⟨rfl, fun _ h => Except.noConfusion h⟩

/-- C4 (amended): the four per-record date fields go through
`pd.to_datetime(..., errors="coerce")`, which never raises — a valid
calendar date string parses to a non-absent value and anything else
coerces to the absent value — while the document-table free-text header
date raises a parser error when no date can be extracted from the cell. -/
theorem c4_record_dates_coerce :
    (∀ s : String, ∃ v, pd_to_datetime .coerce s = .ok v) ∧
    (∀ s d, parseDateL s.data = some d → pd_to_datetime .coerce s = .ok (some d)) ∧
    (∀ s, parseDateL s.data = none → pd_to_datetime .coerce s = .ok none) ∧
    (∀ s, fuzzyParseDateL s.data = none → dparserParseFuzzy s = .error .parserError) := by
  refine ⟨?_, ?_, ?_, ?_⟩
  · intro s
    cases hp : parseDateL s.data with
    | none => exact ⟨none, by simp [pd_to_datetime, hp]⟩
    | some d => exact ⟨some d, by simp [pd_to_datetime, hp]⟩
  · intro s d h
    simp [pd_to_datetime, h]
  · intro s h
    simp [pd_to_datetime, h]
  · intro s h
    simp [dparserParseFuzzy, h]

theorem c4_record_dates_coerce_witness :
    pd_to_datetime .coerce "2024-03-15" = .ok (some ⟨2024, 3, 15⟩) ∧
      pd_to_datetime .coerce "pending" = .ok none ∧
      dparserParseFuzzy "pending" = .error .parserError :=
  ⟨c4_record_dates_coerce.2.1 "2024-03-15" ⟨2024, 3, 15⟩ rfl,
   c4_record_dates_coerce.2.2.1 "pending" rfl,
   c4_record_dates_coerce.2.2.2 "pending" rfl⟩

/-- C5 counterexample: a cell without a hyphen (or with more than one) is
not split into a left and a right part — the tuple unpacking of line 126
raises ValueError, so the claim's universal statement fails at "MechX". -/
theorem c5_unpacking_raises :
    hyphenCell "MechX" = .error .valueError ∧
      hyphenCell "a-b-c" = .error .valueError :=
  ⟨rfl, rfl⟩

/-- C5 (amended): for every cell whose split on "-" yields exactly two
pieces, the trimmed left piece becomes the mechanism and the trimmed right
piece the organism — in particular "MechX - OrgY" yields ("MechX",
"OrgY"); a cell splitting into any other number of pieces raises
ValueError. -/
theorem c5_hyphen_split :
    (∀ s m o, (splitChar '-' s.data).map String.mk = [m, o] →
        hyphenCell s = .ok (pyStrip m, pyStrip o)) ∧
      hyphenCell "MechX - OrgY" = .ok ("MechX", "OrgY") := by
  constructor
  · intro s m o h
    unfold hyphenCell
    rw [h]
  · rfl

theorem c5_hyphen_split_witness :
    (splitChar '-' ("Mech - Org").data).map String.mk = ["Mech ", " Org"] ∧
      hyphenCell "Mech - Org" = .ok ("Mech", "Org") :=
  ⟨rfl, c5_hyphen_split.1 "Mech - Org" "Mech " " Org" rfl⟩

/-- C6: whenever the document-table parse succeeds, every output record's
date_received equals its date_reported, and both equal the date obtained
by fuzzy natural-language parsing of the first cell of row 0. -/
theorem c6_header_date_shared :
    ∀ rows recs, docTableParse rows = .ok recs →
      ∃ d, dparserParseFuzzy ((rows.headD []).headD "") = .ok d ∧
        ∀ r ∈ recs, r.date_received = d ∧ r.date_reported = d := by
  intro rows recs h
  obtain ⟨d, hd, hall⟩ := docTableParse_ok_spec rows recs h
  exact ⟨d, hd, fun r hr => ⟨(hall r hr).1, (hall r hr).2.1⟩⟩

theorem c6_header_date_shared_witness :
    sampleDocRec.date_received = sampleDocRec.date_reported := by
  obtain ⟨d, _, hall⟩ := c6_header_date_shared sampleDocRows [sampleDocRec] rfl
  obtain ⟨e1, e2⟩ := hall sampleDocRec (by simp)
  rw [e1, e2]

/-- C7 counterexample: line 64 replaces every occurrence of ".xlsx", not
only the filename extension — the non-final path segment "a.xlsx" is also
rewritten, so the other path segments are not preserved unchanged. -/
theorem c7_replaces_every_occurrence :
    cleanObjKey "a.xlsx/b.xlsx" = "a.csv/b.csv" ∧
      cleanObjKey "a.xlsx/b.xlsx" ≠ "a.xlsx/b.csv" :=
  ⟨rfl, by decide⟩

/-- C7 (amended): the derived key replaces every occurrence of ".xlsx" by
".csv"; for a key in which ".xlsx" occurs nowhere except as its final
extension, exactly the extension is replaced and the rest of the key is
preserved unchanged. -/
theorem c7_extension_replacement :
    ∀ stem : String, occursIn (".xlsx".data) stem.data = false →
      cleanObjKey (stem ++ ".xlsx") = stem ++ ".csv" := by
  intro stem h
  cases stem with
  | mk l =>
    have main := replaceXlsx_append_xlsx l h
    have e1 : (String.mk l ++ ".xlsx").data = l ++ ['.', 'x', 'l', 's', 'x'] := rfl
    have e2 : String.mk l ++ ".csv" = String.mk (l ++ ['.', 'c', 's', 'v']) := rfl
    show String.mk (replaceXlsx ((String.mk l ++ ".xlsx").data)) = String.mk l ++ ".csv"
    rw [e1, e2, main]

theorem c7_extension_replacement_witness :
    occursIn (".xlsx".data) ("reports/2024/alert").data = false ∧
      cleanObjKey ("reports/2024/alert" ++ ".xlsx") = "reports/2024/alert" ++ ".csv" :=
  ⟨by decide, c7_extension_replacement "reports/2024/alert" (by decide)⟩

/-- C8: a non-success acquisition status terminates the run immediately
with the acquisition error and nothing parsed or stored, and a non-success
publication status terminates the write phase with the publication error
and no clean object produced. -/
theorem c8_fatal_statuses :
    (∀ inp : RunInput, inp.getStatus ≠ 200 →
        runEtl inp = (.error .acquisitionFailure, none)) ∧
    (∀ st csv, st ≠ 200 → writePhase st csv = (.error .publicationFailure, none)) := by
  constructor
  · intro inp h
    unfold runEtl
    rw [if_neg h]
  · intro st csv h
    unfold writePhase
    rw [if_neg h]

theorem c8_fatal_statuses_witness :
    runEtl sampleRunInput = (.error .acquisitionFailure, none) ∧
      writePhase 500 "payload" = (.error .publicationFailure, none) :=
  ⟨c8_fatal_statuses.1 sampleRunInput (by decide),
   c8_fatal_statuses.2 500 "payload" (by decide)⟩

/-- C9: the output column order is fixed — the document-table columns are
exactly the spreadsheet columns plus the trailing Facility of Origin
column (which spreadsheet output never has) — the serialized CSV starts
with the header row, and every data row has exactly one field per column
(no index column). -/
theorem c9_fixed_column_order :
    docInterimColumns = ssInterimColumns ++ ["Facility of Origin"] ∧
    "Facility of Origin" ∉ ssInterimColumns ∧
    (∀ recs : List DocRecord, (toCsvRows recs).head? = some docInterimColumns) ∧
    (∀ recs : List DocRecord, ∀ row ∈ (toCsvRows recs).tail,
        row.length = docInterimColumns.length) := by
  refine ⟨rfl, by decide, fun _ => rfl, ?_⟩
  intro recs row hrow
  simp only [toCsvRows, List.tail_cons] at hrow
  obtain ⟨r, _, rfl⟩ := List.mem_map.mp hrow
  rfl

theorem c9_fixed_column_order_witness :
    (docRecordRow sampleDocRec).length = docInterimColumns.length :=
  c9_fixed_column_order.2.2.2 [sampleDocRec] (docRecordRow sampleDocRec)
    (by simp [toCsvRows])

/-- C10: the pipeline is a pure function of the run input — byte-identical
inputs give identical serialized output — and the header row of the
serialized output (column order and names) is one fixed constant,
independent of the input entirely. -/
theorem c10_deterministic_output :
    (∀ i j : RunInput, i = j → runEtl i = runEtl j) ∧
    (∀ recs : List DocRecord, (toCsvRows recs).head? = some docInterimColumns) :=
  ⟨fun i j h => by rw [h], fun _ => rfl⟩

theorem c10_deterministic_output_witness :
    runEtl sampleRunInput = runEtl sampleRunInput :=
  c10_deterministic_output.1 sampleRunInput sampleRunInput rfl
